import Mathlib

/-!
Shallow embedding of the Prediction Analyzer core
(`prediction_analyzer/trade_loader.py`, `pnl.py`, `charts/enhanced.py`,
`config.py`, `inference.py`, `filters.py`) in Lean 4, together with
theorems checking the natural-language specification against the code.

Modelling conventions:
* Python floats are modelled as rationals (`ℚ`); none of the verified
  properties depends on binary rounding.
* A Python `datetime` is modelled by its wall-clock time expressed as
  seconds since the epoch 1970-01-01T00:00:00 (a rational, so microseconds
  are representable), together with an optional UTC offset in seconds
  (`none` = timezone-naive).  `replace(tzinfo=None)` keeps the wall clock
  and drops the offset, exactly as in CPython.
* Fallible Python code is modelled with `Except PyErr`; a `.error` value
  models an exception propagating out of the modelled fragment.
-/

deriving instance DecidableEq for Except

namespace PredictionAnalyzer

/-- Python exceptions that the modelled code can raise or catch. -/
inductive PyErr where
  | valueError (msg : String)
  | overflowError
deriving Repr, DecidableEq

/-- A Python `datetime`: wall-clock time as integer microseconds since
1970-01-01T00:00:00 (CPython's `datetime` has exactly microsecond
resolution), plus an optional `tzinfo` UTC offset in seconds;
`tz = none` means timezone-naive. -/
structure PyDatetime where
  wallMicros : ℤ
  tz : Option ℤ
deriving Repr, DecidableEq

/-- A datetime at an integer number of epoch seconds. -/
def dtOfSecs (s : ℤ) : PyDatetime := ⟨s * 1000000, none⟩

/-- `datetime(1970, 1, 1)`: the naive epoch sentinel. -/
def epochSentinel : PyDatetime := ⟨0, none⟩

/-- `dt.replace(tzinfo=None)`: keep the wall clock, drop the offset. -/
def PyDatetime.stripTz (d : PyDatetime) : PyDatetime := ⟨d.wallMicros, none⟩

/-- Smallest wall clock representable by `datetime`
(0001-01-01T00:00:00), in microseconds relative to the epoch. -/
def datetimeMinMicros : ℤ := -62135596800000000

/-- Largest wall clock representable by `datetime`
(9999-12-31T23:59:59.999999), in microseconds relative to the epoch. -/
def datetimeMaxMicros : ℤ := 253402300799999999

/-- `datetime.utcfromtimestamp`: converts epoch seconds to a naive
datetime with microsecond resolution (CPython rounds the fractional part
to microseconds; the half-microsecond tie-break is immaterial to every
verified property); raises `OverflowError` when the instant falls outside
the range `datetime` supports. -/
def utcfromtimestamp (q : ℚ) : Except PyErr PyDatetime :=
  if datetimeMinMicros ≤ round (q * 1000000) ∧
      round (q * 1000000) ≤ datetimeMaxMicros then
    .ok ⟨round (q * 1000000), none⟩
  else .error .overflowError

/-- Gregorian leap-year test. -/
def isLeapYear (y : ℕ) : Bool := (y % 4 == 0 && y % 100 != 0) || y % 400 == 0

/-- Number of days in month `m` of year `y`. -/
def daysInMonth (y m : ℕ) : ℕ :=
  if m = 2 then (if isLeapYear y then 29 else 28)
  else if m = 4 ∨ m = 6 ∨ m = 9 ∨ m = 11 then 30
  else 31

/-- Valid calendar date within `datetime`'s supported range. -/
def validDate (y m d : ℕ) : Bool :=
  1 ≤ y && y ≤ 9999 && 1 ≤ m && m ≤ 12 && 1 ≤ d && d ≤ daysInMonth y m

/-- Days from the epoch 1970-01-01 to the civil date `y-m-d`
(days-from-civil algorithm, for `y ≥ 1`). -/
def daysFromCivil (y m d : ℕ) : ℤ :=
  let y' := if m ≤ 2 then y - 1 else y
  let era := y' / 400
  let yoe := y' % 400
  let mp := if m > 2 then m - 3 else m + 9
  let doy := (153 * mp + 2) / 5 + d - 1
  let doe := yoe * 365 + yoe / 4 - yoe / 100 + doy
  (↑(era * 146097 + doe) : ℤ) - 719468

/-- Wall-clock seconds since the epoch of the civil instant
`y-m-d h:mi:s` (for `y ≥ 1`). -/
def civilToSecs (y m d h mi s : ℕ) : ℤ :=
  daysFromCivil y m d * 86400 + h * 3600 + mi * 60 + s

/-! ### String-parsing primitives used by `_parse_timestamp` -/

/-- Numeric value of a digit character. -/
def digitVal (c : Char) : ℕ := c.toNat - 48

/-- Take a maximal run of leading digits; returns their values and the rest. -/
def takeDigits : List Char → List ℕ × List Char
  | [] => ([], [])
  | c :: r =>
    if c.isDigit then
      let (ds, rest) := takeDigits r
      (digitVal c :: ds, rest)
    else ([], c :: r)

/-- Value of a digit list read as a base-10 natural number. -/
def digitsToNat (ds : List ℕ) : ℕ := ds.foldl (fun a d => a * 10 + d) 0

/-- Take exactly `n` leading digits, failing otherwise. -/
def takeFixedDigits : ℕ → List Char → Option (ℕ × List Char)
  | 0, l => some (0, l)
  | _ + 1, [] => none
  | n + 1, c :: r =>
    if c.isDigit then
      (takeFixedDigits n r).map (fun p => (digitVal c * 10 ^ n + p.1, p.2))
    else none

/-- Consume one expected character. -/
def expectChar (c : Char) : List Char → Option (List Char)
  | [] => none
  | c' :: r => if c' = c then some r else none

/-- Whether `n` is a leading block of `l`. -/
def leadsWith : List Char → List Char → Bool
  | [], _ => true
  | _ :: _, [] => false
  | a :: as, b :: bs => a = b && leadsWith as bs

/-- Whether `n` occurs contiguously somewhere in `l`. -/
def occursIn (n : List Char) : List Char → Bool
  | [] => n.isEmpty
  | c :: r => leadsWith n (c :: r) || occursIn n r

/-- Python `s.endswith(suffix)` at the character level. -/
def strEndsWith (s suffixStr : String) : Bool :=
  leadsWith suffixStr.toList.reverse s.toList.reverse

/-- The syntactic pieces of a Python float literal: sign, integer digits,
fraction digits, exponent sign, exponent digits. -/
structure PyFloatLit where
  neg : Bool
  ip : List ℕ
  fp : List ℕ
  eneg : Bool
  ed : List ℕ
deriving Repr, DecidableEq

/-- Optional exponent tail of a Python float literal; fails on trailing
garbage. -/
def parseFloatTail (neg : Bool) (ip fp : List ℕ) (l : List Char) :
    Option PyFloatLit :=
  match l with
  | [] => some ⟨neg, ip, fp, false, []⟩
  | c :: r =>
    if c = 'e' ∨ c = 'E' then
      let (eneg, r1) : Bool × List Char :=
        match r with
        | '+' :: rr => (false, rr)
        | '-' :: rr => (true, rr)
        | _ => (false, r)
      let (ed, r2) := takeDigits r1
      if ed.isEmpty ∨ ¬r2.isEmpty then none else some ⟨neg, ip, fp, eneg, ed⟩
    else none

/-- Syntax of a Python float literal: optional sign, decimal digits with
optional fraction, optional exponent.  (The special spellings `inf`/`nan`,
embedded underscores and surrounding whitespace are outside the modelled
grammar; no verified property involves them.) -/
def parseFloatLit (l : List Char) : Option PyFloatLit :=
  let (neg, l1) : Bool × List Char :=
    match l with
    | '+' :: r => (false, r)
    | '-' :: r => (true, r)
    | _ => (false, l)
  let (ip, l2) := takeDigits l1
  match l2 with
  | '.' :: r =>
    let (fp, l3) := takeDigits r
    if ip.isEmpty ∧ fp.isEmpty then none else parseFloatTail neg ip fp l3
  | _ => if ip.isEmpty then none else parseFloatTail neg ip [] l2

/-- Numeric value of a parsed float literal. -/
def PyFloatLit.val (f : PyFloatLit) : ℚ :=
  (if f.neg then -1 else 1) *
    ((digitsToNat f.ip : ℚ) + (digitsToNat f.fp : ℚ) / (10 : ℚ) ^ f.fp.length) *
    (10 : ℚ) ^ ((if f.eneg then -1 else 1) * (digitsToNat f.ed : ℤ))

/-- Model of Python `float(s)` on strings. -/
def floatOfChars (l : List Char) : Option ℚ :=
  (parseFloatLit l).map PyFloatLit.val

/-- Trailing `[±HH:MM[:SS]]` offset of an ISO-8601 string (after the sign
has been consumed); requires end of input afterwards. -/
def parseIsoOffset (sign : ℤ) (l : List Char) : Option ℤ := do
  let (oh, r) ← takeFixedDigits 2 l
  let r ← expectChar ':' r
  let (om, r) ← takeFixedDigits 2 r
  let (os, r) ←
    match r with
    | ':' :: r2 => takeFixedDigits 2 r2
    | _ => some (0, r)
  if oh ≤ 23 ∧ om ≤ 59 ∧ os ≤ 59 ∧ r.isEmpty then
    some (sign * (oh * 3600 + om * 60 + os))
  else none

/-- `[:SS[.fff|.ffffff]]` tail of an ISO-8601 time, returning seconds,
fractional microseconds and the rest. -/
def parseIsoSeconds (l : List Char) : Option (ℕ × ℕ × List Char) :=
  match l with
  | ':' :: r => do
    let (s, r1) ← takeFixedDigits 2 r
    match r1 with
    | '.' :: r2 =>
      match takeFixedDigits 6 r2 with
      | some (f, r3) => some (s, f, r3)
      | none => do
        let (f, r3) ← takeFixedDigits 3 r2
        some (s, f * 1000, r3)
    | _ => some (s, 0, r1)
  | _ => some (0, 0, l)

/-- Model of `datetime.fromisoformat` (CPython 3.7–3.10 grammar):
`YYYY-MM-DD[*HH:MM[:SS[.fff[fff]]][±HH:MM[:SS]]]` with a fully validated
date and time.  A parse failure models the `ValueError` the caller
catches. -/
def fromisoformatChars (l : List Char) : Option PyDatetime := do
  let (y, l) ← takeFixedDigits 4 l
  let l ← expectChar '-' l
  let (mo, l) ← takeFixedDigits 2 l
  let l ← expectChar '-' l
  let (d, l) ← takeFixedDigits 2 l
  if !validDate y mo d then none
  else
    match l with
    | [] => some (dtOfSecs (civilToSecs y mo d 0 0 0))
    | _sep :: rest => do
      let (h, r) ← takeFixedDigits 2 rest
      let r ← expectChar ':' r
      let (mi, r) ← takeFixedDigits 2 r
      let (sec, fracMicros, r) ← parseIsoSeconds r
      if h ≤ 23 ∧ mi ≤ 59 ∧ sec ≤ 59 then
        let wall : ℤ := civilToSecs y mo d h mi sec * 1000000 + fracMicros
        match r with
        | [] => some ⟨wall, none⟩
        | '+' :: r2 => do
          let off ← parseIsoOffset 1 r2
          some ⟨wall, some off⟩
        | '-' :: r2 => do
          let off ← parseIsoOffset (-1) r2
          some ⟨wall, some off⟩
        | _ => none
      else none

/-- `value.replace('Z', '+00:00')` at the character level (the pattern is
a single character, so Python's substring replacement is exactly this). -/
def replaceZ : List Char → List Char
  | [] => []
  | c :: r =>
    if c = 'Z' then '+' :: '0' :: '0' :: ':' :: '0' :: '0' :: replaceZ r
    else c :: replaceZ r

/-! ### `_parse_timestamp` (trade_loader.py, lines 27–94) -/

/-- The value domain `_parse_timestamp` is fed by the loaders: JSON/CSV
scalars (null, integers, floats, strings) and already-instantiated
datetime-like values (`datetime` and pandas `Timestamp` both strip to the
same model). -/
inductive TsValue where
  | vNone
  | vInt (n : ℤ)
  | vFloat (q : ℚ)
  | vStr (s : String)
  | vDt (d : PyDatetime)
deriving Repr, DecidableEq

/-- The seconds/milliseconds heuristic of `_parse_timestamp`: a numeric
value greater than `1e12` is epoch milliseconds, otherwise epoch seconds;
then `datetime.utcfromtimestamp`. -/
def numericTimestamp (q : ℚ) : Except PyErr PyDatetime :=
  if q > 10 ^ 12 then utcfromtimestamp (q / 1000) else utcfromtimestamp q

/-- `_parse_timestamp`, parameterized by `pdParse`, the model of the
external `pd.to_datetime(value, utc=True)` fallback (`none` models the
exception path the code turns into the epoch sentinel).  All repository
logic — the null/0 sentinel, tz stripping, the ISO attempt with `Z`
normalization, the numeric-string retry, the seconds/milliseconds
heuristic — is modelled concretely. -/
def parseTimestampWith (pdParse : String → Option PyDatetime) :
    TsValue → Except PyErr PyDatetime
  | .vNone => .ok epochSentinel
  | .vInt n => if n = 0 then .ok epochSentinel else numericTimestamp (n : ℚ)
  | .vFloat q => if q = 0 then .ok epochSentinel else numericTimestamp q
  | .vDt d => .ok d.stripTz
  | .vStr s =>
    match fromisoformatChars (replaceZ s.toList) with
    | some dt => .ok dt.stripTz
    | none =>
      match floatOfChars s.toList with
      | some q => numericTimestamp q
      | none =>
        match pdParse s with
        | some dt => .ok dt.stripTz
        | none => .ok epochSentinel

/-- Trivial instantiation of the pandas fallback used for concrete
evaluations (no verified property reaches the generic-parse path). -/
def pdNone : String → Option PyDatetime := fun _ => none

/-! ### The canonical `Trade` entity (trade_loader.py, lines 12–24) -/

/-- The `Trade` dataclass.  Monetary and quantity floats are rationals. -/
structure Trade where
  market : String
  market_slug : String
  timestamp : PyDatetime
  price : ℚ
  shares : ℚ
  cost : ℚ
  type : String
  side : String
  pnl : ℚ := 0
  tx_hash : Option String := none
deriving Repr, DecidableEq

/-! ### Raw input records (trade_loader.py, lines 148–207)

A raw record is a JSON/CSV mapping; we model exactly the keys
`load_trades` reads, each as an `Option` (`none` = key absent or null,
matching how `dict.get` and the subsequent falsiness checks treat both).
For `collateralAmount` the code additionally distinguishes key presence
(`"collateralAmount" in t`) from its value, hence the nested `Option`. -/

/-- The top-level `market` value: a nested object with optional
`title`/`slug`, a flat string, or some other JSON value. -/
inductive MarketField where
  | mDict (title : Option String) (slug : Option String)
  | mStr (s : String)
  | mOther
deriving Repr, DecidableEq

/-- One raw trade mapping, restricted to the keys `load_trades` consults. -/
structure RawTrade where
  market : Option MarketField := none
  market_slug : Option String := none
  collateralAmount : Option (Option ℚ) := none
  pnl : Option ℚ := none
  cost : Option ℚ := none
  shares : Option ℚ := none
  outcomeTokenAmount : Option ℚ := none
  timestamp : Option TsValue := none
  blockTimestamp : Option TsValue := none
  type : Option String := none
  strategy : Option String := none
  side : Option String := none
  outcomeIndex : Option ℤ := none
  price : Option ℚ := none
  tx_hash : Option String := none
  transactionHash : Option String := none
deriving Repr, DecidableEq

/-- Python truthiness of an optional string (`None` and `""` are falsy). -/
def strTruthy : Option String → Bool
  | none => false
  | some s => !(s = "")

/-- `a or b` on optional strings: keep `a` when truthy, else `b`. -/
def pyOrStr (a b : Option String) : Option String :=
  if strTruthy a then a else b

/-- Python truthiness of a timestamp-field value (`None`, `0`, `0.0` and
`""` are falsy; datetimes are truthy). -/
def tsTruthy : Option TsValue → Bool
  | none => false
  | some .vNone => false
  | some (.vInt n) => !(n = 0)
  | some (.vFloat q) => !(q = 0)
  | some (.vStr s) => !(s = "")
  | some (.vDt _) => true

/-- `t.get("timestamp") or t.get("blockTimestamp") or 0`
(trade_loader.py, line 180). -/
def rawTimestampOf (t : RawTrade) : TsValue :=
  if tsTruthy t.timestamp then t.timestamp.getD (.vInt 0)
  else if tsTruthy t.blockTimestamp then t.blockTimestamp.getD (.vInt 0)
  else .vInt 0

/-- Market title/slug resolution (trade_loader.py, lines 149–164). -/
def resolveMarket (t : RawTrade) : String × String :=
  let (title, slug) : String × String :=
    match t.market with
    | some (.mDict ti sl) =>
      ((pyOrStr ti (some "Unknown")).getD "Unknown",
       (pyOrStr sl (some "unknown")).getD "unknown")
    | some (.mStr s) => (s, (pyOrStr t.market_slug (some "unknown")).getD "unknown")
    | some .mOther => ("Unknown", (pyOrStr t.market_slug (some "unknown")).getD "unknown")
    | none => ("Unknown", (pyOrStr t.market_slug (some "unknown")).getD "unknown")
  (if title = "" then "Unknown" else title, if slug = "" then "unknown" else slug)

/-- Micro-unit scaling of `cost`/`pnl`/`shares` (trade_loader.py,
lines 166–177): records carrying the `collateralAmount` marker are in
six-decimal micro-units, others already in natural units.  `x or 0`
collapses null/0 to 0 and keeps any other value. -/
def resolveAmounts (t : RawTrade) : ℚ × ℚ × ℚ :=
  match t.collateralAmount with
  | some ca =>
    ((ca.getD 0) / 1000000, (t.pnl.getD 0) / 1000000,
     (t.outcomeTokenAmount.getD 0) / 1000000)
  | none => (t.cost.getD 0, t.pnl.getD 0, t.shares.getD 0)

/-- Side resolution (trade_loader.py, lines 186–193): a truthy raw `side`
is passed through; otherwise `outcomeIndex` 0 maps to YES and any other
index to NO; otherwise the default YES. -/
def resolveSide (t : RawTrade) : String :=
  if strTruthy t.side then t.side.getD ""
  else
    match t.outcomeIndex with
    | some i => if i = 0 then "YES" else "NO"
    | none => "YES"

/-- The per-record body of `load_trades` (lines 148–207): builds one
`Trade` from one raw record; an error models an exception propagating out
of the record loop (only the timestamp parse can raise here). -/
def normalizeTrade (pdParse : String → Option PyDatetime) (t : RawTrade) :
    Except PyErr Trade :=
  match parseTimestampWith pdParse (rawTimestampOf t) with
  | .error e => .error e
  | .ok ts =>
    .ok
      { market := (resolveMarket t).1
        market_slug := (resolveMarket t).2
        timestamp := ts
        price := t.price.getD 0
        shares := (resolveAmounts t).2.2
        cost := (resolveAmounts t).1
        type := (pyOrStr t.type (pyOrStr t.strategy (some "Buy"))).getD "Buy"
        side := resolveSide t
        pnl := (resolveAmounts t).2.1
        tx_hash := pyOrStr t.tx_hash t.transactionHash }

/-- `load_trades` before its catch-all handler (lines 137–207): dispatch
on the file extension — an unrecognized one raises `ValueError` — then
normalize every raw record.  `fileData` models what the matching reader
(`json.load` / `read_csv` / `read_excel`) produced for the file: a list
of raw mappings, or the exception the read raised. -/
def loadTradesCore (pdParse : String → Option PyDatetime) (file_path : String)
    (fileData : Except PyErr (List RawTrade)) : Except PyErr (List Trade) :=
  match
    (if strEndsWith file_path ".json" ∨ strEndsWith file_path ".csv" ∨
        strEndsWith file_path ".xlsx" then
      fileData
    else
      .error (.valueError "Unsupported file type. Use JSON, CSV, or XLSX.")) with
  | .error e => .error e
  | .ok raw => raw.mapM (normalizeTrade pdParse)

/-- `load_trades` (lines 125–213): any exception is caught, printed and
turned into a normal empty result. -/
def load_trades (pdParse : String → Option PyDatetime) (file_path : String)
    (fileData : Except PyErr (List RawTrade)) : List Trade :=
  match loadTradesCore pdParse file_path fileData with
  | .ok trades => trades
  | .error _ => []

/-! ### Type classification lists (pnl.py lines 38–40 & 78–79,
charts/enhanced.py lines 57 & 96) -/

/-- `["Buy", "Market Buy", "Limit Buy"]`. -/
def buyTypes : List String := ["Buy", "Market Buy", "Limit Buy"]

/-- `["Sell", "Market Sell", "Limit Sell"]`. -/
def sellTypes : List String := ["Sell", "Market Sell", "Limit Sell"]

/-- `t.type in ["Buy", "Market Buy", "Limit Buy"]`. -/
def isBuyListed (ty : String) : Bool := buyTypes.contains ty

/-- `t.type in ["Sell", "Market Sell", "Limit Sell"]`. -/
def isSellListed (ty : String) : Bool := sellTypes.contains ty

/-! ### Timestamp sort shared by the accounting engines

`calculate_pnl` sorts with `df.sort_values("timestamp")` and
`generate_enhanced_chart` with `sorted(trades, key=...)`; modelled as one
stable insertion sort ascending by wall clock (`sorted` is guaranteed
stable; no verified property depends on tie order). -/

/-- Insert a trade before the first strictly-later element. -/
def insertByTs (x : Trade) : List Trade → List Trade
  | [] => [x]
  | y :: r =>
    if x.timestamp.wallMicros ≤ y.timestamp.wallMicros then x :: y :: r
    else y :: insertByTs x r

/-- Stable sort ascending by timestamp. -/
def sortByTs : List Trade → List Trade
  | [] => []
  | x :: r => insertByTs x (sortByTs r)

/-! ### `calculate_pnl` (pnl.py, lines 10–44) -/

/-- Running cumulative sums of a rational list (`cumsum`). -/
def cumsum (acc : ℚ) : List ℚ → List ℚ
  | [] => []
  | x :: r => (acc + x) :: cumsum (acc + x) r

/-- One step of the `calculate_pnl` exposure loop (lines 37–42): Buy-listed
types add `shares`, Sell-listed subtract, any other type leaves the
counter unchanged — the side is not consulted. -/
def pnlExposureStep (t : Trade) (c : ℚ) : ℚ :=
  if isBuyListed t.type then c + t.shares
  else if isSellListed t.type then c - t.shares
  else c

/-- The exposure column: running counter appended after each row. -/
def pnlExposureSeries (c : ℚ) : List Trade → List ℚ
  | [] => []
  | t :: r =>
    let c' := pnlExposureStep t c
    c' :: pnlExposureSeries c' r

/-- The DataFrame columns `calculate_pnl` produces (empty input returns an
empty frame). -/
structure PnlFrame where
  rows : List Trade
  cumulative_pnl : List ℚ
  exposure : List ℚ
deriving Repr, DecidableEq

/-- `calculate_pnl`: sort by timestamp, cumulative sum of the `pnl`
column, and the side-blind exposure counter. -/
def calculate_pnl (trades : List Trade) : PnlFrame :=
  match trades with
  | [] => ⟨[], [], []⟩
  | _ =>
    let s := sortByTs trades
    ⟨s, cumsum 0 (s.map Trade.pnl), pnlExposureSeries 0 s⟩

/-! ### `generate_enhanced_chart` running metrics
(charts/enhanced.py, lines 40–84) -/

/-- One step of the enhanced-chart loop (lines 56–74) on the
`(current_shares, current_cost)` state: Buy-listed types add `cost` and
add/subtract `shares` by side; every other type takes the `else  # Sell`
branch, subtracting `cost` and applying the opposite share sign. -/
def enhancedStep (t : Trade) (p : ℚ × ℚ) : ℚ × ℚ :=
  if isBuyListed t.type then
    if t.side = "YES" then (p.1 + t.shares, p.2 + t.cost)
    else (p.1 - t.shares, p.2 + t.cost)
  else
    if t.side = "YES" then (p.1 - t.shares, p.2 - t.cost)
    else (p.1 + t.shares, p.2 - t.cost)

/-- The per-trade `(net_shares, total_cost_basis)` states of the loop. -/
def enhancedScan (p : ℚ × ℚ) : List Trade → List (ℚ × ℚ)
  | [] => []
  | t :: r =>
    let q := enhancedStep t p
    q :: enhancedScan q r

/-- The `net_shares` series of the enhanced chart (exposure). -/
def net_shares (trades : List Trade) : List ℚ :=
  (enhancedScan (0, 0) (sortByTs trades)).map Prod.fst

/-- The `total_cost_basis` series of the enhanced chart. -/
def total_cost_basis (trades : List Trade) : List ℚ :=
  (enhancedScan (0, 0) (sortByTs trades)).map Prod.snd

/-- The "Long YES" presentation classification (lines 92–103). -/
def is_long_yes (t : Trade) : Bool :=
  if isBuyListed t.type then t.side = "YES" else t.side = "NO"

/-! ### `calculate_global_pnl_summary` (pnl.py, lines 46–103) -/

/-- The summary dictionary.  `breakeven_trades` is `Option` because the
zero-trade early return omits that key (the repository's own tests read it
with `result.get("breakeven_trades", 0)`). -/
structure PnlSummary where
  total_trades : ℕ
  total_volume : ℚ
  total_pnl : ℚ
  win_rate : ℚ
  avg_pnl_per_trade : ℚ
  avg_pnl : ℚ
  winning_trades : ℕ
  losing_trades : ℕ
  breakeven_trades : Option ℕ
  total_invested : ℚ
  total_returned : ℚ
  roi : ℚ
deriving Repr, DecidableEq

/-- Sum of a rational-valued column. -/
def sumBy (f : Trade → ℚ) (trades : List Trade) : ℚ :=
  (trades.map f).sum

/-- `calculate_global_pnl_summary`. -/
def calculate_global_pnl_summary (trades : List Trade) : PnlSummary :=
  match trades with
  | [] =>
    { total_trades := 0, total_volume := 0, total_pnl := 0, win_rate := 0
      avg_pnl_per_trade := 0, avg_pnl := 0, winning_trades := 0
      losing_trades := 0, breakeven_trades := none, total_invested := 0
      total_returned := 0, roi := 0 }
  | _ =>
    let total_volume := sumBy Trade.cost trades
    let total_pnl := sumBy Trade.pnl trades
    let winning := trades.countP (fun t => t.pnl > 0)
    let losing := trades.countP (fun t => t.pnl < 0)
    let breakeven := trades.countP (fun t => t.pnl = 0)
    let total := trades.length
    let buy_trades := trades.filter (fun t => isBuyListed t.type)
    let sell_trades := trades.filter (fun t => isSellListed t.type)
    let total_invested := if 0 < buy_trades.length then sumBy Trade.cost buy_trades else 0
    let total_returned := if 0 < sell_trades.length then sumBy Trade.cost sell_trades else 0
    let roi := if total_invested > 0 then total_pnl / total_invested * 100 else 0
    let outcome := winning + losing
    let win_rate := if outcome > 0 then (winning : ℚ) / (outcome : ℚ) * 100 else 0
    { total_trades := total, total_volume := total_volume, total_pnl := total_pnl
      win_rate := win_rate
      avg_pnl_per_trade := if total > 0 then total_pnl / total else 0
      avg_pnl := if total > 0 then total_pnl / total else 0
      winning_trades := winning, losing_trades := losing
      breakeven_trades := some breakeven, total_invested := total_invested
      total_returned := total_returned, roi := roi }

/-! ### `get_trade_style` (config.py, lines 11–49) -/

/-- One chart style: colour, marker, label. -/
structure TradeStyle where
  color : String
  marker : String
  label : String
deriving Repr, DecidableEq

/-- The `STYLES` table (config.py, lines 11–27). -/
def STYLES (ty side : String) : Option TradeStyle :=
  if ty = "Buy" ∧ side = "YES" then some ⟨"#008f00", "x", "Buy YES"⟩
  else if ty = "Sell" ∧ side = "YES" then some ⟨"#00c800", "o", "Sell YES"⟩
  else if ty = "Buy" ∧ side = "NO" then some ⟨"#d000d0", "x", "Buy NO"⟩
  else if ty = "Sell" ∧ side = "NO" then some ⟨"#d40000", "o", "Sell NO"⟩
  else if ty = "Market Buy" ∧ side = "YES" then some ⟨"#008f00", "x", "Buy YES"⟩
  else if ty = "Market Sell" ∧ side = "YES" then some ⟨"#00c800", "o", "Sell YES"⟩
  else if ty = "Market Buy" ∧ side = "NO" then some ⟨"#d000d0", "x", "Buy NO"⟩
  else if ty = "Market Sell" ∧ side = "NO" then some ⟨"#d40000", "o", "Sell NO"⟩
  else if ty = "Limit Buy" ∧ side = "YES" then some ⟨"#008f00", "^", "Limit Buy YES"⟩
  else if ty = "Limit Sell" ∧ side = "YES" then some ⟨"#00c800", "v", "Limit Sell YES"⟩
  else if ty = "Limit Buy" ∧ side = "NO" then some ⟨"#d000d0", "^", "Limit Buy NO"⟩
  else if ty = "Limit Sell" ∧ side = "NO" then some ⟨"#d40000", "v", "Limit Sell NO"⟩
  else none

/-- Python `"Buy" in trade_type`: substring containment. -/
def containsSub (needle hay : String) : Bool :=
  occursIn needle.toList hay.toList

/-- `get_trade_style` (config.py, lines 30–49): exact table lookup, else
substring normalization to a base type (`Buy` when neither substring
occurs), else a grey fallback style. -/
def get_trade_style (trade_type side : String) : TradeStyle :=
  match STYLES trade_type side with
  | some st => st
  | none =>
    let base := if containsSub "Buy" trade_type then "Buy"
      else if containsSub "Sell" trade_type then "Sell" else "Buy"
    (STYLES base side).getD ⟨"#808080", "o", trade_type ++ " " ++ side⟩

/-! ### `infer_resolved_side_from_trades` (inference.py, lines 9–40) -/

/-- `PRICE_RESOLUTION_THRESHOLD` (config.py, line 53). -/
def PRICE_RESOLUTION_THRESHOLD : ℚ := 1 / 2

/-- `max(trades, key=lambda t: t.timestamp)`: Python's `max` keeps the
first of equally-late elements. -/
def latestTrade (t : Trade) : List Trade → Trade
  | [] => t
  | x :: r =>
    if x.timestamp.wallMicros > t.timestamp.wallMicros then latestTrade x r
    else latestTrade t r

/-- `infer_resolved_side_from_trades`. -/
def infer_resolved_side_from_trades (trades : List Trade)
    (threshold : ℚ := PRICE_RESOLUTION_THRESHOLD) :
    Option String × Option Trade :=
  match trades with
  | [] => (none, none)
  | t :: r =>
    let latest := latestTrade t r
    if ¬(latest.side = "YES" ∨ latest.side = "NO") then (none, some latest)
    else
      let threshold_cents := threshold * 100
      let inferred :=
        if latest.price ≥ threshold_cents then latest.side
        else if latest.side = "YES" then "NO" else "YES"
      (some inferred, some latest)

/-! ### Filters (filters.py) -/

/-- Python truthiness of an optional allow-list (`None` and `[]` falsy). -/
def listTruthy : Option (List String) → Bool
  | none => false
  | some [] => false
  | some (_ :: _) => true

/-- `filter_by_trade_type` (lines 84–97). -/
def filter_by_trade_type (trades : List Trade)
    (types : Option (List String) := none) : List Trade :=
  if ¬listTruthy types then trades
  else trades.filter (fun t => (types.getD []).contains t.type)

/-- `filter_by_side` (lines 99–112). -/
def filter_by_side (trades : List Trade)
    (sides : Option (List String) := none) : List Trade :=
  if ¬listTruthy sides then trades
  else trades.filter (fun t => (sides.getD []).contains t.side)

/-- `filter_by_pnl` (lines 114–134). -/
def filter_by_pnl (trades : List Trade) (min_pnl : Option ℚ := none)
    (max_pnl : Option ℚ := none) : List Trade :=
  trades.filter (fun t =>
    (match min_pnl with | some m => decide (t.pnl ≥ m) | none => true) &&
    (match max_pnl with | some m => decide (t.pnl ≤ m) | none => true))

/-- A `start`/`end` argument of `filter_by_date`: the signature documents
`'YYYY-MM-DD'` strings, and the body also accepts datetime values. -/
inductive DateArg where
  | dstr (s : String)
  | ddt (d : PyDatetime)
deriving Repr, DecidableEq

/-- Python truthiness of an optional date argument. -/
def dateArgTruthy : Option DateArg → Bool
  | none => false
  | some (.dstr s) => !(s = "")
  | some (.ddt _) => true

/-- `datetime.strptime(s, "%Y-%m-%d")`: 1–4 digit year, 1–2 digit month
and day separated by literal dashes, fully validated; a mismatch models
the `ValueError` strptime raises (which `filter_by_date` does not catch). -/
def strptimeYmd (s : String) : Except PyErr PyDatetime :=
  let l := s.toList
  let (yd, l1) := takeDigits l
  let step : Option (ℕ × ℕ × ℕ) := do
    if yd.isEmpty ∨ 4 < yd.length then none
    let l2 ← expectChar '-' l1
    let (md, l3) := takeDigits l2
    if md.isEmpty ∨ 2 < md.length then none
    let l4 ← expectChar '-' l3
    let (dd, l5) := takeDigits l4
    if dd.isEmpty ∨ 2 < dd.length ∨ ¬l5.isEmpty then none
    some (digitsToNat yd, digitsToNat md, digitsToNat dd)
  match step with
  | some (y, m, d) =>
    if validDate y m d then .ok (dtOfSecs (civilToSecs y m d 0 0 0))
    else .error (.valueError "time data does not match format")
  | none => .error (.valueError "time data does not match format")

/-- `_normalize_datetime` (filters.py, lines 10–37) restricted to the
datetime values a `Trade` carries: strip any offset. -/
def normalize_datetime (d : PyDatetime) : PyDatetime := d.stripTz

/-- Bound resolution of `filter_by_date` (lines 55–68): a non-empty
string is parsed with strptime — the end bound then covers the whole day
(`+ 1 day − 1 second`) — and a datetime argument is normalized; an empty
string leaves the bound unset. -/
def dateBound (isEnd : Bool) : Option DateArg → Except PyErr (Option PyDatetime)
  | some (.dstr s) =>
    if s = "" then .ok none
    else
      match strptimeYmd s with
      | .error e => .error e
      | .ok d =>
        .ok (some (if isEnd then ⟨d.wallMicros + 86399000000, none⟩ else d))
  | some (.ddt d) => .ok (some (normalize_datetime d))
  | none => .ok none

/-- `filter_by_date` (lines 40–82): both-bounds-absent returns the input
unchanged; otherwise keep the trades whose normalized timestamp lies
within the resolved bounds. -/
def filter_by_date (trades : List Trade) (start : Option DateArg := none)
    (stop : Option DateArg := none) : Except PyErr (List Trade) :=
  if ¬dateArgTruthy start ∧ ¬dateArgTruthy stop then .ok trades
  else
    match dateBound false start with
    | .error e => .error e
    | .ok start_dt =>
      match dateBound true stop with
      | .error e => .error e
      | .ok end_dt =>
        .ok (trades.filter (fun t =>
          (match start_dt with
           | some b =>
             decide (b.wallMicros ≤ (normalize_datetime t.timestamp).wallMicros)
           | none => true) &&
          (match end_dt with
           | some b =>
             decide ((normalize_datetime t.timestamp).wallMicros ≤ b.wallMicros)
           | none => true)))

/-! ### Spec-side definitions

These follow the specification's words (not the code) and are compared
against the embedded code in refinement-style theorems. -/

/-- Spec §4.4 step 3 / claim C1: the signed exposure contribution of one
trade — Buy-classified + YES → `+shares`, Buy-classified + NO →
`-shares`, Sell-classified + YES → `-shares`, Sell-classified + NO →
`+shares`. -/
def claimExposureDelta (t : Trade) : ℚ :=
  if isBuyListed t.type then (if t.side = "YES" then t.shares else -t.shares)
  else (if t.side = "YES" then -t.shares else t.shares)

/-- Spec §4.4 step 4 / claim C1: the signed cash contribution of one
trade — Buy-classified adds `cost`, Sell-classified subtracts `cost`,
independent of side. -/
def claimCostDelta (t : Trade) : ℚ :=
  if isBuyListed t.type then t.cost else -t.cost

/-- The exposure series the claim describes: running sums of the signed
deltas over the time-sorted trades. -/
def claimExposureSeries (trades : List Trade) : List ℚ :=
  cumsum 0 ((sortByTs trades).map claimExposureDelta)

/-- The cost-basis series the claim describes. -/
def claimCostSeries (trades : List Trade) : List ℚ :=
  cumsum 0 ((sortByTs trades).map claimCostDelta)

/-- Claim C4's classifier: Buy-like by substring match on the type
string, defaulting to Buy-like when neither substring occurs. -/
def claimBuyClassified (ty : String) : Bool :=
  if containsSub "Buy" ty then true
  else if containsSub "Sell" ty then false
  else true

/-- The exposure series claim C4 implies: side-signed running sums with
the substring classifier deciding Buy versus Sell. -/
def substringExposureDelta (t : Trade) : ℚ :=
  if claimBuyClassified t.type then
    (if t.side = "YES" then t.shares else -t.shares)
  else (if t.side = "YES" then -t.shares else t.shares)

/-- Running sums of `substringExposureDelta` over the sorted trades. -/
def substringExposureSeries (trades : List Trade) : List ℚ :=
  cumsum 0 ((sortByTs trades).map substringExposureDelta)

/-! ### Concrete instances used in counterexamples and witnesses -/

/-- A neutral trade all concrete instances start from. -/
def baseTrade : Trade :=
  { market := "m", market_slug := "m", timestamp := ⟨0, none⟩, price := 0
    shares := 0, cost := 0, type := "Buy", side := "YES" }

/-- The Buy/YES trade of the spec's accounting example
(`cost=100, shares=10, price=60`). -/
def exBuyYes : Trade :=
  { baseTrade with cost := 100, shares := 10, price := 60 }

/-- The later Sell/YES trade of the spec's accounting example
(`cost=70, shares=10, price=70`). -/
def exSellYes : Trade :=
  { baseTrade with type := "Sell", cost := 70, shares := 10, price := 70
                   timestamp := ⟨1000000, none⟩ }

/-- A single Buy/NO trade of 5 shares. -/
def exBuyNo : Trade :=
  { baseTrade with side := "NO", shares := 5, cost := 10, price := 50 }

/-- A trade whose type string contains `Buy` without being a canonical
variant. -/
def exBuyback : Trade := { baseTrade with type := "Buyback", shares := 5 }

/-- A trade carrying only a realized pnl. -/
def pnlTrade (p : ℚ) : Trade := { baseTrade with pnl := p }

/-- The spec's summary example: trades with pnl values `[10, 20, -5]`. -/
def exPnlTrades : List Trade := [pnlTrade 10, pnlTrade 20, pnlTrade (-5)]

/-- A raw record carrying an arbitrary non-empty side string and a
negative shares value. -/
def exBadRecord : RawTrade := { side := some "MAYBE", shares := some (-5) }

/-- The trade `load_trades` produces from `exBadRecord`. -/
def exBadTrade : Trade :=
  { market := "Unknown", market_slug := "unknown", timestamp := ⟨0, none⟩
    price := 0, shares := -5, cost := 0, type := "Buy", side := "MAYBE" }

/-- The all-defaults raw record (every key absent). -/
def exEmptyRecord : RawTrade := {}

/-- The trade `load_trades` produces from `exEmptyRecord`. -/
def exDefaultTrade : Trade :=
  { market := "Unknown", market_slug := "unknown", timestamp := ⟨0, none⟩
    price := 0, shares := 0, cost := 0, type := "Buy", side := "YES" }

/-! ## Theorems -/

/-- Every successful result of `_parse_timestamp` is timezone-naive:
each return path either builds a naive datetime or strips the offset. -/
theorem parseTimestamp_naive (pdParse : String → Option PyDatetime)
    (v : TsValue) (d : PyDatetime)
    (h : parseTimestampWith pdParse v = .ok d) : d.tz = none := by
  have hnum : ∀ (q : ℚ) (e : PyDatetime), numericTimestamp q = .ok e → e.tz = none := by
    intro q e he
    unfold numericTimestamp utcfromtimestamp at he
    split at he <;> split at he <;> cases he <;> rfl
  cases v with
  | vNone => cases h; rfl
  | vInt n =>
    simp only [parseTimestampWith] at h
    split at h
    · cases h; rfl
    · exact hnum _ _ h
  | vFloat q =>
    simp only [parseTimestampWith] at h
    split at h
    · cases h; rfl
    · exact hnum _ _ h
  | vDt d0 => cases h; rfl
  | vStr s =>
    simp only [parseTimestampWith] at h
    rcases h1 : fromisoformatChars (replaceZ s.toList) with - | d1 <;>
      simp only [h1] at h
    · rcases h2 : floatOfChars s.toList with - | q <;> simp only [h2] at h
      · rcases h3 : pdParse s with - | d2 <;> simp only [h3] at h <;>
          cases h <;> rfl
      · exact hnum _ _ h
    · cases h; rfl

/-- `max(trades, key=timestamp)` returns an element of the scanned list. -/
theorem latestTrade_mem (t : Trade) (l : List Trade) :
    latestTrade t l = t ∨ latestTrade t l ∈ l := by
  induction l generalizing t with
  | nil => left; rfl
  | cons x r ih =>
    unfold latestTrade
    split
    · rcases ih x with h | h
      · right; rw [h]; exact List.mem_cons_self x r
      · right; exact List.mem_cons_of_mem x h
    · rcases ih t with h | h
      · left; exact h
      · right; exact List.mem_cons_of_mem x h

/-- `max(trades, key=timestamp)` dominates every scanned timestamp. -/
theorem latestTrade_ge (t : Trade) (l : List Trade) :
    t.timestamp.wallMicros ≤ (latestTrade t l).timestamp.wallMicros ∧
      ∀ x ∈ l, x.timestamp.wallMicros ≤ (latestTrade t l).timestamp.wallMicros := by
  induction l generalizing t with
  | nil => exact ⟨le_refl _, by simp⟩
  | cons x r ih
  =>
    unfold latestTrade
    split
    · next hgt =>
      obtain ⟨h1, h2⟩ := ih x
      refine ⟨le_trans (le_of_lt hgt) h1, ?_⟩
      intro y hy
      rcases List.mem_cons.mp hy with hy | hy
      · rw [hy]; exact h1
      · exact h2 y hy
    · next hle =>
      obtain ⟨h1, h2⟩ := ih t
      refine ⟨h1, ?_⟩
      intro y hy
      rcases List.mem_cons.mp hy with hy | hy
      · rw [hy]; exact le_trans (not_lt.mp hle) h1
      · exact h2 y hy

/-- C6.  The claim says an unrecognized file extension is surfaced to the
caller as a hard failure.  The code does raise `ValueError` internally
(second conjunct), but the `raise` sits inside `load_trades`'s catch-all
`except Exception` handler, which prints and returns `[]` — so the caller
sees a normal empty result (first conjunct), exactly the silent-swallow
defect §9 of the spec flags. -/
theorem C6_unsupported_extension_swallowed :
    load_trades pdNone "trades.txt" (.ok []) = [] ∧
      loadTradesCore pdNone "trades.txt" (.ok []) =
        .error (.valueError "Unsupported file type. Use JSON, CSV, or XLSX.") :=
  ⟨rfl, rfl⟩

/-- C7.  Degenerate inputs resolve to documented defaults: zero trades
yield the all-zero summary (total functions — nothing can raise), and a
zero `total_invested` makes `roi` resolve to `0.0`. -/
theorem C7_degenerate_inputs_default (trades : List Trade) :
    calculate_global_pnl_summary [] =
      { total_trades := 0, total_volume := 0, total_pnl := 0, win_rate := 0
        avg_pnl_per_trade := 0, avg_pnl := 0, winning_trades := 0
        losing_trades := 0, breakeven_trades := none, total_invested := 0
        total_returned := 0, roi := 0 } ∧
    ((calculate_global_pnl_summary trades).total_invested = 0 →
      (calculate_global_pnl_summary trades).roi = 0) := by
  refine ⟨rfl, ?_⟩
  intro h
  cases trades with
  | nil => rfl
  | cons t r =>
    simp only [calculate_global_pnl_summary] at h ⊢
    rw [h]
    norm_num

/-- C7 witness: the zero-investment rule evaluated on the empty list. -/
theorem C7_witness : (calculate_global_pnl_summary []).roi = 0 :=
  (C7_degenerate_inputs_default []).2 rfl

/-- C9.  The type and side filters treat `None` and a caller-supplied
empty allow-list identically: both are falsy, so both return every trade
unchanged. -/
theorem C9_empty_allowset_no_filtering (trades : List Trade) :
    filter_by_trade_type trades none = trades ∧
      filter_by_trade_type trades (some []) = trades ∧
      filter_by_side trades none = trades ∧
      filter_by_side trades (some []) = trades :=
  ⟨rfl, rfl, rfl, rfl⟩

/-- C10.  Each filter returns an order-preserving sublist of its input
(for the date filter, whenever it returns instead of raising on a
malformed bound). -/
theorem C10_filters_sublists (trades : List Trade)
    (types sides : Option (List String)) (mn mx : Option ℚ)
    (start stop : Option DateArg) (out : List Trade) :
    List.Sublist (filter_by_trade_type trades types) trades ∧
      List.Sublist (filter_by_side trades sides) trades ∧
      List.Sublist (filter_by_pnl trades mn mx) trades ∧
      (filter_by_date trades start stop = .ok out → List.Sublist out trades) := by
  refine ⟨?_, ?_, ?_, ?_⟩
  · unfold filter_by_trade_type
    split
    · exact List.Sublist.refl trades
    · exact List.filter_sublist trades
  · unfold filter_by_side
    split
    · exact List.Sublist.refl trades
    · exact List.filter_sublist trades
  · exact List.filter_sublist trades
  · intro h
    unfold filter_by_date at h
    split at h
    · cases h
      exact List.Sublist.refl trades
    · rcases h1 : dateBound false start with e1 | b1 <;> simp only [h1] at h
      · cases h
      · rcases h2 : dateBound true stop with e2 | b2 <;> simp only [h2] at h
        · cases h
        · cases h
          exact List.filter_sublist trades

/-- The win/lose/breakeven counts partition any trade list. -/
theorem pnl_counts_partition (trades : List Trade) :
    trades.countP (fun t => t.pnl > 0) + trades.countP (fun t => t.pnl < 0) +
      trades.countP (fun t => t.pnl = 0) = trades.length := by
  induction trades with
  | nil => rfl
  | cons t r ih =>
    simp only [List.countP_cons, List.length_cons]
    simp only [gt_iff_lt] at ih ⊢
    rcases lt_trichotomy t.pnl 0 with h | h | h
    · have h1 : ¬0 < t.pnl := not_lt.mpr h.le
      have h2 : ¬t.pnl = 0 := h.ne
      simp [h, h1, h2]
      omega
    · have h1 : ¬0 < t.pnl := by rw [h]; exact lt_irrefl 0
      have h2 : ¬t.pnl < 0 := by rw [h]; exact lt_irrefl 0
      simp [h, h1, h2]
      omega
    · have h1 : ¬t.pnl < 0 := not_lt.mpr h.le
      have h2 : ¬t.pnl = 0 := h.ne.symm
      simp [h, h1, h2]
      omega

/-- C5.  The summary's win/lose/breakeven counts always partition the
trades (the zero-trade path omits the `breakeven_trades` key, read here
with the 0 default the repository's own tests use); the win rate is
`winning / (winning + losing) × 100` with breakeven trades excluded and
`0.0` when no trade has an outcome; and on pnl values `[10, 20, -5]` the
summary reports `total_pnl = 25`, 2 winners, 1 loser and a win rate of
`200/3 ≈ 66.67`. -/
theorem C5_summary_statistics (trades : List Trade) :
    ((calculate_global_pnl_summary trades).winning_trades +
        (calculate_global_pnl_summary trades).losing_trades +
        (calculate_global_pnl_summary trades).breakeven_trades.getD 0 =
      (calculate_global_pnl_summary trades).total_trades) ∧
    ((calculate_global_pnl_summary trades).winning_trades +
        (calculate_global_pnl_summary trades).losing_trades = 0 →
      (calculate_global_pnl_summary trades).win_rate = 0) ∧
    (0 < (calculate_global_pnl_summary trades).winning_trades +
        (calculate_global_pnl_summary trades).losing_trades →
      (calculate_global_pnl_summary trades).win_rate =
        ((calculate_global_pnl_summary trades).winning_trades : ℚ) /
          (((calculate_global_pnl_summary trades).winning_trades : ℚ) +
            ((calculate_global_pnl_summary trades).losing_trades : ℚ)) * 100) ∧
    (calculate_global_pnl_summary exPnlTrades).total_pnl = 25 ∧
    (calculate_global_pnl_summary exPnlTrades).winning_trades = 2 ∧
    (calculate_global_pnl_summary exPnlTrades).losing_trades = 1 ∧
    (calculate_global_pnl_summary exPnlTrades).win_rate = 200 / 3 ∧
    |(calculate_global_pnl_summary exPnlTrades).win_rate - 6667 / 100| <
      1 / 100 := by
  have hbuy : exPnlTrades.filter (fun t => isBuyListed t.type) = exPnlTrades := by
    decide
  have hsell : exPnlTrades.filter (fun t => isSellListed t.type) = [] := by
    decide
  have hw : exPnlTrades.countP (fun t => t.pnl > 0) = 2 := by decide
  have hl : exPnlTrades.countP (fun t => t.pnl < 0) = 1 := by decide
  have hb : exPnlTrades.countP (fun t => t.pnl = 0) = 0 := by decide
  have hsum : sumBy Trade.pnl exPnlTrades = 25 := by
    norm_num [sumBy, exPnlTrades, pnlTrade, baseTrade]
  have hvol : sumBy Trade.cost exPnlTrades = 0 := by
    norm_num [sumBy, exPnlTrades, pnlTrade, baseTrade]
  have hex : calculate_global_pnl_summary exPnlTrades =
      { total_trades := 3, total_volume := 0, total_pnl := 25
        win_rate := 200 / 3, avg_pnl_per_trade := 25 / 3, avg_pnl := 25 / 3
        winning_trades := 2, losing_trades := 1, breakeven_trades := some 0
        total_invested := 0, total_returned := 0, roi := 0 } := by
    rw [show calculate_global_pnl_summary exPnlTrades =
      calculate_global_pnl_summary (pnlTrade 10 :: [pnlTrade 20, pnlTrade (-5)])
      from rfl]
    simp only [calculate_global_pnl_summary]
    rw [show (pnlTrade 10 :: [pnlTrade 20, pnlTrade (-5)]) = exPnlTrades
      from rfl]
    rw [hbuy, hsell, hw, hl, hb, hsum, hvol]
    norm_num [exPnlTrades, sumBy]
  refine ⟨?_, ?_, ?_, ?_, ?_, ?_, ?_, ?_⟩
  · cases trades with
    | nil => rfl
    | cons t r =>
      simp only [calculate_global_pnl_summary, Option.getD_some]
      exact pnl_counts_partition (t :: r)
  · cases trades with
    | nil => intro; rfl
    | cons t r =>
      simp only [calculate_global_pnl_summary]
      intro h
      rw [h]
      norm_num
  · cases trades with
    | nil => intro h; exact absurd h (lt_irrefl 0)
    | cons t r =>
      simp only [calculate_global_pnl_summary]
      intro h
      rw [if_pos h]
      push_cast
      ring
  · rw [hex]
  · rw [hex]
  · rw [hex]
  · rw [hex]
  · rw [hex]
    rw [abs_sub_lt_iff]
    norm_num

/-- C5 witness: the win-rate formula evaluated on the example trades. -/
theorem C5_witness :
    (calculate_global_pnl_summary exPnlTrades).win_rate =
      ((calculate_global_pnl_summary exPnlTrades).winning_trades : ℚ) /
        (((calculate_global_pnl_summary exPnlTrades).winning_trades : ℚ) +
          ((calculate_global_pnl_summary exPnlTrades).losing_trades : ℚ)) *
        100 :=
  (C5_summary_statistics exPnlTrades).2.2.1 (by
    have h := (C5_summary_statistics exPnlTrades).2.2.2.2.1
    omega)

/-- C8.  The price-threshold heuristic: empty input yields `(None, None)`;
otherwise the returned trade is the latest-timestamp element of the input
(Python `max` keeps the first of equally-late trades), a non-YES/NO side
yields no inferred outcome, and a YES/NO side infers that side when its
price reaches `threshold × 100` cents (default threshold 0.5, i.e. 50)
and the opposite side below it. -/
theorem C8_price_threshold_heuristic (th : ℚ) (t : Trade) (r : List Trade) :
    infer_resolved_side_from_trades [] th = (none, none) ∧
    PRICE_RESOLUTION_THRESHOLD * 100 = 50 ∧
    (infer_resolved_side_from_trades (t :: r) th).2 =
      some (latestTrade t r) ∧
    (latestTrade t r = t ∨ latestTrade t r ∈ r) ∧
    (∀ x ∈ t :: r,
      x.timestamp.wallMicros ≤ (latestTrade t r).timestamp.wallMicros) ∧
    (¬((latestTrade t r).side = "YES" ∨ (latestTrade t r).side = "NO") →
      (infer_resolved_side_from_trades (t :: r) th).1 = none) ∧
    (((latestTrade t r).side = "YES" ∨ (latestTrade t r).side = "NO") →
      (infer_resolved_side_from_trades (t :: r) th).1 =
        some (if (latestTrade t r).price ≥ th * 100 then (latestTrade t r).side
          else if (latestTrade t r).side = "YES" then "NO" else "YES")) := by
  refine ⟨rfl, by norm_num [PRICE_RESOLUTION_THRESHOLD], ?_,
    latestTrade_mem t r, ?_, ?_, ?_⟩
  · simp only [infer_resolved_side_from_trades]
    split <;> rfl
  · intro x hx
    rcases List.mem_cons.mp hx with hx | hx
    · rw [hx]; exact (latestTrade_ge t r).1
    · exact (latestTrade_ge t r).2 x hx
  · intro h
    simp only [infer_resolved_side_from_trades, if_pos h]
  · intro h
    simp only [infer_resolved_side_from_trades, if_neg (not_not_intro h)]

/-- C8 witness: the heuristic evaluated on the two example trades (the
later Sell/YES trade at price 70 with the default threshold infers YES). -/
theorem C8_witness :
    (infer_resolved_side_from_trades [exBuyYes, exSellYes]
      PRICE_RESOLUTION_THRESHOLD).1 = some "YES" := by
  have h := (C8_price_threshold_heuristic PRICE_RESOLUTION_THRESHOLD
    exBuyYes [exSellYes]).2.2.2.2.2.2 (by left; decide)
  rw [h]
  norm_num [latestTrade, exBuyYes, exSellYes, baseTrade,
    PRICE_RESOLUTION_THRESHOLD]

/-- The first component of one enhanced-chart step is the spec's signed
exposure delta. -/
theorem enhancedStep_fst (t : Trade) (p : ℚ × ℚ) :
    (enhancedStep t p).1 = p.1 + claimExposureDelta t := by
  unfold enhancedStep claimExposureDelta
  split_ifs <;> simp [sub_eq_add_neg]

/-- The second component of one enhanced-chart step is the spec's signed
cash delta. -/
theorem enhancedStep_snd (t : Trade) (p : ℚ × ℚ) :
    (enhancedStep t p).2 = p.2 + claimCostDelta t := by
  unfold enhancedStep claimCostDelta
  split_ifs <;> simp [sub_eq_add_neg]

/-- The share components of the enhanced-chart loop are the running sums
of the signed exposure deltas. -/
theorem enhancedScan_fst (l : List Trade) : ∀ p : ℚ × ℚ,
    (enhancedScan p l).map Prod.fst = cumsum p.1 (l.map claimExposureDelta) := by
  induction l with
  | nil => intro p; rfl
  | cons t r ih =>
    intro p
    simp only [enhancedScan, List.map_cons, cumsum]
    rw [ih (enhancedStep t p), enhancedStep_fst]

/-- The cash components of the enhanced-chart loop are the running sums of
the signed cash deltas. -/
theorem enhancedScan_snd (l : List Trade) : ∀ p : ℚ × ℚ,
    (enhancedScan p l).map Prod.snd = cumsum p.2 (l.map claimCostDelta) := by
  induction l with
  | nil => intro p; rfl
  | cons t r ih =>
    intro p
    simp only [enhancedScan, List.map_cons, cumsum]
    rw [ih (enhancedStep t p), enhancedStep_snd]

/-- C1 (amended).  The enhanced-chart engine's exposure series is exactly
the claim's side-signed running sum and its cost-basis series the claim's
signed cash sum, and the spec's Buy/YES-then-Sell/YES example evaluates to
`[10, 0]` and `[100, 30]`.  (`calculate_pnl`'s exposure column does not
follow the side-signed rule — see the counterexample.) -/
theorem C1_enhanced_series_signed (trades : List Trade) :
    net_shares trades = claimExposureSeries trades ∧
    total_cost_basis trades = claimCostSeries trades ∧
    net_shares [exBuyYes, exSellYes] = [10, 0] ∧
    total_cost_basis [exBuyYes, exSellYes] = [100, 30] := by
  have h1 : ∀ l, net_shares l = claimExposureSeries l := fun l => by
    unfold net_shares claimExposureSeries
    exact enhancedScan_fst (sortByTs l) (0, 0)
  have h2 : ∀ l, total_cost_basis l = claimCostSeries l := fun l => by
    unfold total_cost_basis claimCostSeries
    exact enhancedScan_snd (sortByTs l) (0, 0)
  have hsort : sortByTs [exBuyYes, exSellYes] = [exBuyYes, exSellYes] := by
    decide
  have hb1 : isBuyListed "Buy" = true := by decide
  have hb2 : isBuyListed "Sell" = false := by decide
  refine ⟨h1 trades, h2 trades, ?_, ?_⟩
  · rw [h1]
    norm_num [claimExposureSeries, hsort, claimExposureDelta, cumsum, hb1,
      hb2, exBuyYes, exSellYes, baseTrade]
  · rw [h2]
    norm_num [claimCostSeries, hsort, claimCostDelta, cumsum, hb1, hb2,
      exBuyYes, exSellYes, baseTrade]

/-- C1 counterexample.  The claim reads the exposure rule as holding for
the accounting engine's exposure series, but `calculate_pnl`'s exposure
loop never consults the side: a single Buy/NO trade of 5 shares yields
exposure `[5]` there, while the claimed side-signed running sum is
`[-5]`. -/
theorem C1_counterexample :
    (calculate_pnl [exBuyNo]).exposure = [5] ∧
    claimExposureSeries [exBuyNo] = [-5] ∧
    (calculate_pnl [exBuyNo]).exposure ≠ claimExposureSeries [exBuyNo] := by
  have hb : isBuyListed "Buy" = true := by decide
  have hno : ¬("NO" = "YES") := by decide
  have hsort : sortByTs [exBuyNo] = [exBuyNo] := by decide
  have e1 : (calculate_pnl [exBuyNo]).exposure = [5] := by
    norm_num [calculate_pnl, hsort, pnlExposureSeries, pnlExposureStep, hb,
      exBuyNo, baseTrade]
  have e2 : claimExposureSeries [exBuyNo] = [-5] := by
    norm_num [claimExposureSeries, hsort, claimExposureDelta, cumsum, hb,
      hno, exBuyNo, baseTrade]
  refine ⟨e1, e2, ?_⟩
  rw [e1, e2]
  intro hc
  have : (5 : ℚ) = -5 := List.head_eq_of_cons_eq hc
  norm_num at this

/-- Both components of `resolveMarket` are non-empty on every record. -/
theorem resolveMarket_ne (r : RawTrade) :
    ¬(resolveMarket r).1 = "" ∧ ¬(resolveMarket r).2 = "" := by
  unfold resolveMarket
  rcases r.market with - | mf
  · constructor <;>
      (dsimp only
       split_ifs with h1
       · decide
       · exact h1)
  · cases mf <;> constructor <;>
      (dsimp only
       split_ifs with h1
       · decide
       · exact h1)

/-- C2 (amended).  Every Trade `normalizeTrade` produces has a non-empty
market and slug and a naive timestamp; its side is YES/NO whenever the raw
side field is absent or empty (default and `outcomeIndex` paths) — but a
supplied non-empty side string is passed through unvalidated, and `shares`
is stored exactly as the (scaled) raw value, so it is non-negative only
when the input is. -/
theorem C2_normalizer_invariants (pdParse : String → Option PyDatetime)
    (r : RawTrade) (t : Trade) (h : normalizeTrade pdParse r = .ok t) :
    ¬t.market = "" ∧ ¬t.market_slug = "" ∧ t.timestamp.tz = none ∧
    (¬strTruthy r.side → t.side = "YES" ∨ t.side = "NO") ∧
    (∀ s, r.side = some s → ¬s = "" → t.side = s) ∧
    t.shares = (resolveAmounts r).2.2 := by
  unfold normalizeTrade at h
  rcases hp : parseTimestampWith pdParse (rawTimestampOf r) with e | d <;>
    rw [hp] at h
  · cases h
  · cases h
    refine ⟨(resolveMarket_ne r).1, (resolveMarket_ne r).2,
      parseTimestamp_naive pdParse _ d hp, ?_, ?_, rfl⟩
    · intro hns
      show resolveSide r = "YES" ∨ resolveSide r = "NO"
      unfold resolveSide
      rw [if_neg hns]
      cases r.outcomeIndex with
      | none => left; rfl
      | some i =>
        by_cases hi : i = 0
        · left; simp [hi]
        · right; simp [hi]
    · intro s hs hne
      show resolveSide r = s
      unfold resolveSide
      have hst : strTruthy r.side = true := by
        rw [hs]
        simp [strTruthy, hne]
      rw [if_pos hst, hs]
      rfl

/-- C2 counterexample.  A raw record supplying the non-empty side string
`MAYBE` and shares `-5` is loaded without being dropped; the resulting
Trade violates both `side ∈ {YES, NO}` and non-negative `shares`. -/
theorem C2_counterexample :
    load_trades pdNone "trades.json" (.ok [exBadRecord]) = [exBadTrade] ∧
    ¬(exBadTrade.side = "YES" ∨ exBadTrade.side = "NO") ∧
    exBadTrade.shares < 0 := by
  refine ⟨by decide, by decide, ?_⟩
  norm_num [exBadTrade]

/-- C2 witness: the invariants instantiated on the all-defaults record. -/
theorem C2_witness :
    ¬exDefaultTrade.market = "" ∧ ¬exDefaultTrade.market_slug = "" ∧
    exDefaultTrade.timestamp.tz = none ∧
    exDefaultTrade.shares = (resolveAmounts exEmptyRecord).2.2 := by
  have h := C2_normalizer_invariants pdNone exEmptyRecord exDefaultTrade
    (by decide)
  exact ⟨h.1, h.2.1, h.2.2.1, h.2.2.2.2.2⟩

/-- C3 (amended).  `_parse_timestamp` yields the epoch sentinel on null
and literal 0, returns a timezone-naive datetime whenever it returns, and
applies the milliseconds heuristic — numeric values above `1e12` are
divided by 1000, others read as epoch seconds — so `1704067200` and
`1704067200000` both parse to 2024-01-01T00:00:00; but it is not total:
a numeric value whose instant falls outside `datetime`'s range raises an
uncaught `OverflowError` (see the counterexample). -/
theorem C3_parser_rules (pdParse : String → Option PyDatetime) (q : ℚ) :
    parseTimestampWith pdParse .vNone = .ok epochSentinel ∧
    parseTimestampWith pdParse (.vInt 0) = .ok epochSentinel ∧
    parseTimestampWith pdParse (.vFloat 0) = .ok epochSentinel ∧
    (∀ v d, parseTimestampWith pdParse v = .ok d → d.tz = none) ∧
    (¬q = 0 → 10 ^ 12 < q →
      parseTimestampWith pdParse (.vFloat q) = utcfromtimestamp (q / 1000)) ∧
    (¬q = 0 → ¬10 ^ 12 < q →
      parseTimestampWith pdParse (.vFloat q) = utcfromtimestamp q) ∧
    parseTimestampWith pdParse (.vInt 1704067200) =
      .ok (dtOfSecs (civilToSecs 2024 1 1 0 0 0)) ∧
    parseTimestampWith pdParse (.vInt 1704067200000) =
      .ok (dtOfSecs (civilToSecs 2024 1 1 0 0 0)) := by
  have hc : civilToSecs 2024 1 1 0 0 0 = 1704067200 := by decide
  refine ⟨rfl, rfl, ?_, parseTimestamp_naive pdParse, ?_, ?_, ?_, ?_⟩
  · norm_num [parseTimestampWith]
  · intro hq hgt
    simp only [parseTimestampWith, numericTimestamp]
    rw [if_neg hq, if_pos hgt]
  · intro hq hgt
    simp only [parseTimestampWith, numericTimestamp]
    rw [if_neg hq, if_neg hgt]
  · rw [hc]
    norm_num [parseTimestampWith, numericTimestamp, utcfromtimestamp,
      datetimeMinMicros, datetimeMaxMicros, dtOfSecs, round_eq]
  · rw [hc]
    norm_num [parseTimestampWith, numericTimestamp, utcfromtimestamp,
      datetimeMinMicros, datetimeMaxMicros, dtOfSecs, round_eq]

/-- C3 counterexample.  The totality part of the claim fails: the numeric
branch calls `datetime.utcfromtimestamp` outside any handler, so the
integer `10^30` (milliseconds heuristic, instant far beyond year 9999)
raises `OverflowError` out of `_parse_timestamp`. -/
theorem C3_counterexample :
    parseTimestampWith pdNone (.vInt (10 ^ 30)) = .error .overflowError := by
  norm_num [parseTimestampWith, numericTimestamp, utcfromtimestamp,
    datetimeMinMicros, datetimeMaxMicros, round_eq]

/-- C3 witness: the milliseconds rule applied at the example value. -/
theorem C3_witness :
    parseTimestampWith pdNone (.vFloat 1704067200000) =
      utcfromtimestamp (1704067200000 / 1000) :=
  (C3_parser_rules pdNone 1704067200000).2.2.2.2.1 (by norm_num)
    (by norm_num)

/-- C4 (amended).  On the six canonical variants the engines' exact-list
membership test coincides with substring classification; but a type string
outside the lists is not classified Buy-like by the accounting engines:
`calculate_pnl` leaves its exposure counter unchanged and the enhanced
chart applies the Sell rule — only the styling helper `get_trade_style`
falls back to Buy via substring match. -/
theorem C4_classification (t : Trade) (c : ℚ) (p : ℚ × ℚ) (ty sd : String) :
    (∀ u ∈ buyTypes ++ sellTypes,
      isBuyListed u = containsSub "Buy" u ∧
        isSellListed u = containsSub "Sell" u) ∧
    (¬isBuyListed t.type → ¬isSellListed t.type → pnlExposureStep t c = c) ∧
    (¬isBuyListed t.type →
      enhancedStep t p =
        (if t.side = "YES" then (p.1 - t.shares, p.2 - t.cost)
         else (p.1 + t.shares, p.2 - t.cost))) ∧
    (¬containsSub "Buy" ty → ¬containsSub "Sell" ty → STYLES ty sd = none →
      get_trade_style ty sd =
        (STYLES "Buy" sd).getD ⟨"#808080", "o", ty ++ " " ++ sd⟩) := by
  refine ⟨by decide, ?_, ?_, ?_⟩
  · intro h1 h2
    unfold pnlExposureStep
    rw [if_neg h1, if_neg h2]
  · intro h1
    unfold enhancedStep
    rw [if_neg h1]
  · intro h1 h2 h3
    simp only [get_trade_style, h3]
    rw [if_neg h1, if_neg h2]

/-- C4 counterexample.  `Buyback` contains the substring `Buy`, so the
claim classifies it Buy-like (side-signed exposure `[+5]` for a YES
trade); but the engines match exact lists: the enhanced chart takes its
Sell branch (`[-5]`) and `calculate_pnl` skips it entirely (`[0]`). -/
theorem C4_counterexample :
    claimBuyClassified "Buyback" = true ∧
    substringExposureSeries [exBuyback] = [5] ∧
    net_shares [exBuyback] = [-5] ∧
    (calculate_pnl [exBuyback]).exposure = [0] ∧
    net_shares [exBuyback] ≠ substringExposureSeries [exBuyback] := by
  have hsort : sortByTs [exBuyback] = [exBuyback] := by decide
  have hb : isBuyListed "Buyback" = false := by decide
  have hs : isSellListed "Buyback" = false := by decide
  have hcl : claimBuyClassified "Buyback" = true := by decide
  have e1 : substringExposureSeries [exBuyback] = [5] := by
    norm_num [substringExposureSeries, hsort, substringExposureDelta, hcl,
      cumsum, exBuyback, baseTrade]
  have e2 : net_shares [exBuyback] = [-5] := by
    norm_num [net_shares, hsort, enhancedScan, enhancedStep, hb, exBuyback,
      baseTrade]
  have e3 : (calculate_pnl [exBuyback]).exposure = [0] := by
    norm_num [calculate_pnl, hsort, pnlExposureSeries, pnlExposureStep, hb,
      hs, exBuyback, baseTrade]
  refine ⟨by decide, e1, e2, e3, ?_⟩
  rw [e1, e2]
  intro hc
  have : (-5 : ℚ) = 5 := List.head_eq_of_cons_eq hc
  norm_num at this

/-- C4 witness: the no-op default of `calculate_pnl` and the Buy fallback
of the styling helper, evaluated at the `Buyback` trade. -/
theorem C4_witness :
    pnlExposureStep exBuyback 0 = 0 ∧
    get_trade_style "Unknown Kind" "YES" =
      (STYLES "Buy" "YES").getD
        ⟨"#808080", "o", "Unknown Kind" ++ " " ++ "YES"⟩ := by
  have h := C4_classification exBuyback 0 (0, 0) "Unknown Kind" "YES"
  exact ⟨h.2.1 (by decide) (by decide), h.2.2.2 (by decide) (by decide)
    (by decide)⟩

/-- C10 witness: the date filter evaluated at a concrete bound. -/
theorem C10_witness : List.Sublist [baseTrade] [baseTrade] :=
  (C10_filters_sublists [baseTrade] none none none none none
    (some (.dstr "1970-01-02")) [baseTrade]).2.2.2 (by decide)

end PredictionAnalyzer
